import Mathlib

/-!
Shallow embedding of the wyvern renderer's triangle-batching and flush
protocol (src/graphics/renderer.rs, renderergl.rs, renderervk.rs), the
uniform-buffer update paths, the GLSL shader lookup tables
(shaderglsl.rs), and the image row-flip (image.rs).

The `f32` component values carried by vertex batches are never inspected
arithmetically by the embedded code paths (they are only copied), so the
component type is abstracted as a type parameter `α`.  Byte stores are
modelled as functions from addresses to an abstract byte type.
-/

namespace Wyvern

/-- Triangle buffer maximum size (in triangles); `TRIANGLE_ARRAY_SIZE`. -/
def TRIANGLE_ARRAY_SIZE : Nat := 512

/-- Number of components per vertex: 3 dimensions by 3 attributes. -/
def VERTEX_MAX_COMPONENTS : Nat := 3 * 3

/-- Number of components per triangle. -/
def TRIANGLE_MAX_COMPONENTS : Nat := VERTEX_MAX_COMPONENTS * 3

/-- Number of individual components in a full component array. -/
def TRIANGLE_MAX_TOTAL_COMPONENTS : Nat := TRIANGLE_ARRAY_SIZE * TRIANGLE_MAX_COMPONENTS

/-- The vertex-layout variants, `VertexArrayType` in renderer.rs. -/
inductive VertexArrayType : Type where
  | F3
  | F3F3F3
  | F3F3
  | F2F2
deriving DecidableEq, Repr

/-- Primitive topology, `PrimitiveType` in renderer.rs. -/
inductive PrimitiveType : Type where
  | PrimitiveTriangles
  | PrimitivePatches
deriving DecidableEq, Repr

/-- `VertexArrayType::components_per_vertex`. -/
def VertexArrayType.components_per_vertex : VertexArrayType → Nat
  | .F3 => 3
  | .F3F3F3 => 9
  | .F3F3 => 6
  | .F2F2 => 4

/-- The discriminant of a `VertexArrayType` (`ty as u32` / `as usize`). -/
def VertexArrayType.toIdx : VertexArrayType → Nat
  | .F3 => 0
  | .F3F3F3 => 1
  | .F3F3 => 2
  | .F2F2 => 3

/-- `VERTEX_ARRAY_TYPE_BEGIN_RANGE = VertexArrayType::F3 as u32`. -/
def VERTEX_ARRAY_TYPE_BEGIN_RANGE : Nat := VertexArrayType.toIdx .F3

/-- `VERTEX_ARRAY_TYPE_END_RANGE = VertexArrayType::F2F2 as u32`. -/
def VERTEX_ARRAY_TYPE_END_RANGE : Nat := VertexArrayType.toIdx .F2F2

/-- Three-component vector (algebra/vector.rs `Vec3`), component type abstracted. -/
structure Vec3 (α : Type) : Type where
  x : α
  y : α
  z : α
deriving DecidableEq, Repr, Inhabited

/-- Two-component vector (algebra/vector.rs `Vec2`), component type abstracted. -/
structure Vec2 (α : Type) : Type where
  x : α
  y : α
deriving DecidableEq, Repr

/-- Per-thread vertex batch, `ThreadData` in renderer.rs. -/
structure ThreadData (α : Type) : Type where
  thr : Nat
  vertex_array_type : VertexArrayType
  index : Nat
  primitive : PrimitiveType
  finished : Bool
  data : List α
deriving DecidableEq, Repr

/-- `ThreadData::new`: fresh batch with layout F3F3F3, index 0, zeroed buffer
of `TRIANGLE_MAX_TOTAL_COMPONENTS` components (`zero` stands for `0.0f32`). -/
def ThreadData.new (thr : Nat) (zero : α) : ThreadData α :=
  { thr := thr
    vertex_array_type := .F3F3F3
    index := 0
    primitive := .PrimitiveTriangles
    finished := false
    data := List.replicate TRIANGLE_MAX_TOTAL_COMPONENTS zero }

/-- `impl Clone for ThreadData`: field copies plus an element-by-element
copy of the data buffer. -/
def ThreadData.clone (td : ThreadData α) : ThreadData α :=
  { thr := td.thr
    vertex_array_type := td.vertex_array_type
    index := td.index
    primitive := td.primitive
    finished := td.finished
    data := td.data.map (fun x => x) }

/-- `ThreadData::add_triangle_st_n3`: write 9 components at
`index * components_per_vertex(vertex_array_type) * 3`, then increment the index. -/
def ThreadData.add_triangle_st_n3 (td : ThreadData α) (n1 n2 n3 : Vec3 α) : ThreadData α :=
  let i := td.index * VertexArrayType.components_per_vertex td.vertex_array_type * 3
  { td with
    data := ((((((((td.data.set (i + 0) n1.x).set (i + 1) n1.y).set (i + 2) n1.z).set
      (i + 3) n2.x).set (i + 4) n2.y).set (i + 5) n2.z).set
      (i + 6) n3.x).set (i + 7) n3.y).set (i + 8) n3.z
    index := td.index + 1 }

/-- `ThreadData::add_triangle_st_f3f3f3`: write 27 components at
`index * components_per_vertex(vertex_array_type) * 3`, then increment the index. -/
def ThreadData.add_triangle_st_f3f3f3 (td : ThreadData α)
    (v1 n1 c1 v2 n2 c2 v3 n3 c3 : Vec3 α) : ThreadData α :=
  let i := td.index * VertexArrayType.components_per_vertex td.vertex_array_type * 3
  { td with
    data := (((((((((((((((((((((((((
      (td.data.set (i + 0) v1.x).set (i + 1) v1.y).set (i + 2) v1.z).set
      (i + 3) n1.x).set (i + 4) n1.y).set (i + 5) n1.z).set
      (i + 6) c1.x).set (i + 7) c1.y).set (i + 8) c1.z).set
      (i + 9) v2.x).set (i + 10) v2.y).set (i + 11) v2.z).set
      (i + 12) n2.x).set (i + 13) n2.y).set (i + 14) n2.z).set
      (i + 15) c2.x).set (i + 16) c2.y).set (i + 17) c2.z).set
      (i + 18) v3.x).set (i + 19) v3.y).set (i + 20) v3.z).set
      (i + 21) n3.x).set (i + 22) n3.y).set (i + 23) n3.z).set
      (i + 24) c3.x).set (i + 25) c3.y).set (i + 26) c3.z
    index := td.index + 1 }

/-- `ThreadData::add_triangle_st_f3f3`: write 18 components at
`index * components_per_vertex(vertex_array_type) * 3`, then increment the index. -/
def ThreadData.add_triangle_st_f3f3 (td : ThreadData α)
    (v1 n1 v2 n2 v3 n3 : Vec3 α) : ThreadData α :=
  let i := td.index * VertexArrayType.components_per_vertex td.vertex_array_type * 3
  { td with
    data := ((((((((((((((((
      (td.data.set (i + 0) v1.x).set (i + 1) v1.y).set (i + 2) v1.z).set
      (i + 3) n1.x).set (i + 4) n1.y).set (i + 5) n1.z).set
      (i + 6) v2.x).set (i + 7) v2.y).set (i + 8) v2.z).set
      (i + 9) n2.x).set (i + 10) n2.y).set (i + 11) n2.z).set
      (i + 12) v3.x).set (i + 13) v3.y).set (i + 14) v3.z).set
      (i + 15) n3.x).set (i + 16) n3.y).set (i + 17) n3.z
    index := td.index + 1 }

/-- `ThreadData::add_triangle_st_f2f2`: write 12 components at
`index * components_per_vertex(vertex_array_type) * 3`, then increment the index. -/
def ThreadData.add_triangle_st_f2f2 (td : ThreadData α)
    (v1 t1 v2 t2 v3 t3 : Vec2 α) : ThreadData α :=
  let i := td.index * VertexArrayType.components_per_vertex td.vertex_array_type * 3
  { td with
    data := ((((((((((
      (td.data.set (i + 0) v1.x).set (i + 1) v1.y).set
      (i + 2) t1.x).set (i + 3) t1.y).set
      (i + 4) v2.x).set (i + 5) v2.y).set
      (i + 6) t2.x).set (i + 7) t2.y).set
      (i + 8) v3.x).set (i + 9) v3.y).set
      (i + 10) t3.x).set (i + 11) t3.y
    index := td.index + 1 }

/-- The observable content of a `glBufferData` + `glDrawArrays` pair issued
by `RendererGl::flush`. -/
structure DrawCall (α : Type) : Type where
  vertexCount : Nat
  bufferData : List α
  primitive : PrimitiveType
deriving DecidableEq, Repr

/-- The observable effect of one `RendererGl::flush` call: whether the shared
renderer lock was acquired, and the draw call issued (if any). -/
structure GlFlushEffect (α : Type) : Type where
  locked : Bool
  draw : Option (DrawCall α)
deriving DecidableEq, Repr

/-- `RendererGl::flush`: returns immediately when the batch write index is 0
(before taking the lock); otherwise locks and issues one draw call of
`index * 3` vertices backed by `index * components_per_triangle` components,
where `components_per_triangle` comes from the renderer's current layout. -/
def RendererGl.flush (renderer_vat : VertexArrayType) (td : ThreadData α) : GlFlushEffect α :=
  if td.index = 0 then
    { locked := false, draw := none }
  else
    let components_per_triangle := 3 * VertexArrayType.components_per_vertex renderer_vat
    { locked := true
      draw := some
        { vertexCount := td.index * 3
          bufferData := td.data.take (td.index * components_per_triangle)
          primitive := td.primitive } }

/-- `ThreadData::check_flush_st`, OpenGL renderer arm: flush and reset the
index when forced or at capacity. -/
def ThreadData.check_flush_st_gl (td : ThreadData α) (force : Bool)
    (renderer_vat : VertexArrayType) : ThreadData α × Option (GlFlushEffect α) :=
  if force || td.index == TRIANGLE_ARRAY_SIZE then
    ({ td with index := 0 }, some (RendererGl.flush renderer_vat td))
  else
    (td, none)

/-- Pointwise update of a triply-indexed table (models assignment into the
nested `Vec`s indexed by swapchain image, layout discriminant, thread). -/
def update3 {β : Type} (f : Nat → Nat → Nat → β) (a b c : Nat) (v : β) :
    Nat → Nat → Nat → β :=
  fun x y z => if x = a ∧ y = b ∧ z = c then v else f x y z

/-- The slice of `RendererVk` state that the batching claims depend on:
the acquired swapchain image index, the pass's layout, and per
(image, layout, thread) slot the buffer-pool cursor (`vertex_buffer_index`,
an `i32` starting at -1) and the pool length (`vertex_buffer[..].len()`). -/
structure VkState : Type where
  image_count : Nat
  max_threads : Nat
  image_index : Nat
  vertex_array_type : VertexArrayType
  vertex_buffer_index : Nat → Nat → Nat → Int
  vertex_buffer_len : Nat → Nat → Nat → Nat

/-- The observable content of the map/copy/unmap plus
`vkCmdBindVertexBuffers`/`vkCmdDraw` recorded by `RendererVk::flush`. -/
structure VkDraw (α : Type) : Type where
  bufferIndex : Int
  words : List α
  vertexCount : Nat
deriving DecidableEq, Repr

/-- `RendererVk::flush`: returns immediately when the batch write index is 0;
otherwise advances the (image, layout, thread) buffer-pool cursor by one,
appends a new vertex buffer exactly when the advanced cursor equals the pool
length, copies `components_per_triangle * index` words, and records a draw of
`3 * index` vertices from the cursor's buffer. -/
def RendererVk.flush (st : VkState) (td : ThreadData α) : VkState × Option (VkDraw α) :=
  if td.index = 0 then
    (st, none)
  else
    let thr := td.thr
    let ty := st.vertex_array_type
    let t := ty.toIdx
    let img := st.image_index
    let cursor : Int := st.vertex_buffer_index img t thr + 1
    let len : Nat := st.vertex_buffer_len img t thr
    let len2 : Nat := if cursor = (len : Int) then len + 1 else len
    let st2 : VkState :=
      { st with
        vertex_buffer_index := update3 st.vertex_buffer_index img t thr cursor
        vertex_buffer_len := update3 st.vertex_buffer_len img t thr len2 }
    let components_per_triangle := 3 * VertexArrayType.components_per_vertex ty
    (st2, some
      { bufferIndex := cursor
        words := td.data.take (components_per_triangle * td.index)
        vertexCount := 3 * td.index })

/-- `RendererVk::begin_pass`, restricted to the state slice modelled here:
adopt the shader's vertex layout and reset the buffer-pool cursor of every
(layout, thread) slot of the *current* swapchain image to -1. -/
def RendererVk.begin_pass (shader_vat : VertexArrayType) (st : VkState) : VkState :=
  { st with
    vertex_array_type := shader_vat
    vertex_buffer_index := fun img t thr =>
      if img = st.image_index ∧ VERTEX_ARRAY_TYPE_BEGIN_RANGE ≤ t ∧
          t ≤ VERTEX_ARRAY_TYPE_END_RANGE ∧ thr < st.max_threads
      then -1
      else st.vertex_buffer_index img t thr }

/-- `ThreadData::check_flush_st`, Vulkan renderer arm: flush and reset the
index when forced or at capacity.  The outer option records whether the
flush branch ran at all; the inner one whether a draw was recorded. -/
def ThreadData.check_flush_st_vk (td : ThreadData α) (force : Bool) (st : VkState) :
    ThreadData α × VkState × Option (Option (VkDraw α)) :=
  if force || td.index == TRIANGLE_ARRAY_SIZE then
    let r := RendererVk.flush st td
    ({ td with index := 0 }, r.1, some r.2)
  else
    (td, st, none)

/-- What the worker-thread `ThreadData::check_flush` does for the OpenGL arm
when the branch is taken: flush directly when `max_threads == 1`, otherwise
clone the batch (with `finished` set to `force`) and send it to the
coordinator. -/
inductive GlMtEffect (α : Type) : Type where
  | direct (e : GlFlushEffect α)
  | send (msg : ThreadData α)
deriving DecidableEq, Repr

/-- `ThreadData::check_flush` (worker variant), OpenGL renderer arm.  The
batch sent to the coordinator is the clone taken *before* the index reset,
with its `finished` flag set to `force`. -/
def ThreadData.check_flush_mt_gl (td : ThreadData α) (force : Bool) (max_threads : Nat)
    (renderer_vat : VertexArrayType) : ThreadData α × Option (GlMtEffect α) :=
  if force || td.index == TRIANGLE_ARRAY_SIZE then
    if max_threads = 1 then
      ({ td with index := 0 }, some (.direct (RendererGl.flush renderer_vat td)))
    else
      let msg := { td.clone with finished := force }
      ({ td with index := 0 }, some (.send msg))
  else
    (td, none)

/-- `ThreadData::check_flush` (worker variant), Vulkan renderer arm: the
worker flushes its own command buffer directly, independent of the thread
count, exactly as in the single-threaded variant. -/
def ThreadData.check_flush_mt_vk (td : ThreadData α) (force : Bool) (st : VkState) :
    ThreadData α × VkState × Option (Option (VkDraw α)) :=
  ThreadData.check_flush_st_vk td force st

/-- `ThreadData::add_triangle_n3` on the OpenGL path: an unforced flush
check followed by the raw append. -/
def ThreadData.add_triangle_n3_gl (td : ThreadData α) (max_threads : Nat)
    (renderer_vat : VertexArrayType) (n1 n2 n3 : Vec3 α) :
    ThreadData α × Option (GlMtEffect α) :=
  let r := td.check_flush_mt_gl false max_threads renderer_vat
  (r.1.add_triangle_st_n3 n1 n2 n3, r.2)

/-- `ThreadData::add_triangle_f3f3f3` on the OpenGL path: an unforced flush
check followed by the raw append. -/
def ThreadData.add_triangle_f3f3f3_gl (td : ThreadData α) (max_threads : Nat)
    (renderer_vat : VertexArrayType) (v1 n1 c1 v2 n2 c2 v3 n3 c3 : Vec3 α) :
    ThreadData α × Option (GlMtEffect α) :=
  let r := td.check_flush_mt_gl false max_threads renderer_vat
  (r.1.add_triangle_st_f3f3f3 v1 n1 c1 v2 n2 c2 v3 n3 c3, r.2)

/-- `ThreadData::add_triangle_f3f3` on the OpenGL path: an unforced flush
check followed by the raw append. -/
def ThreadData.add_triangle_f3f3_gl (td : ThreadData α) (max_threads : Nat)
    (renderer_vat : VertexArrayType) (v1 n1 v2 n2 v3 n3 : Vec3 α) :
    ThreadData α × Option (GlMtEffect α) :=
  let r := td.check_flush_mt_gl false max_threads renderer_vat
  (r.1.add_triangle_st_f3f3 v1 n1 v2 n2 v3 n3, r.2)

/-- One iteration of the coordinator loop's observable effects in
`mt_render_harness`: the flush performed for a received batch and the
acknowledgment sent back to the batch's thread (`backtxs[thread_data.thr]`). -/
structure CoordEffect (α : Type) : Type where
  flushed : GlFlushEffect α
  ack : Nat
deriving DecidableEq, Repr

/-- The coordinator loop of `mt_render_harness` (OpenGL arm): while fewer
than `max_threads` workers have finished, receive a batch, flush it,
bump the tally when its `finished` flag is set, and acknowledge the sender.
The `msgs` list is the sequence of batches arriving on the shared channel;
`none` models the coordinator blocking forever on an empty channel.  The
result carries the final tally, the effects in order, and the unread rest
of the channel. -/
def coordinator_loop (max_threads : Nat) (renderer_vat : VertexArrayType) :
    Nat → List (ThreadData α) → Option (Nat × List (CoordEffect α) × List (ThreadData α))
  | threads_finished, msgs =>
    if max_threads ≤ threads_finished then
      some (threads_finished, [], msgs)
    else
      match msgs with
      | [] => none
      | thread_data :: rest =>
        let e : CoordEffect α :=
          { flushed := RendererGl.flush renderer_vat thread_data, ack := thread_data.thr }
        let tally2 := if thread_data.finished then threads_finished + 1 else threads_finished
        match coordinator_loop max_threads renderer_vat tally2 rest with
        | none => none
        | some (t, es, leftover) => some (t, e :: es, leftover)

/-- An `f32` value viewed as its four constituent bytes (the granularity at
which the uniform-buffer byte region is addressed). -/
structure Float32 (γ : Type) : Type where
  b0 : γ
  b1 : γ
  b2 : γ
  b3 : γ
deriving DecidableEq, Repr

/-- Write one byte into a byte-addressed store. -/
def writeByte (bytes : Nat → γ) (a : Nat) (v : γ) : Nat → γ :=
  fun x => if x = a then v else bytes x

/-- Write the four bytes of an `f32` at byte address `a`. -/
def writeFloat32 (bytes : Nat → γ) (a : Nat) (w : Float32 γ) : Nat → γ :=
  writeByte (writeByte (writeByte (writeByte bytes a w.b0) (a + 1) w.b1) (a + 2) w.b2)
    (a + 3) w.b3

/-- `ptr::copy_nonoverlapping(src, dst_f32, vector.len())`: the words of the
vector land consecutively, 4 bytes apart, starting at address `a`. -/
def copyWords : (Nat → γ) → Nat → List (Float32 γ) → Nat → γ
  | bytes, _, [] => bytes
  | bytes, a, w :: ws => copyWords (writeFloat32 bytes a w) (a + 4) ws

/-- The element-by-element scatter loop `for i in 0..vector.len()` writing
word `i` at byte address `i * stride + offset`; `i` is the loop counter. -/
def scatterFrom : (Nat → γ) → Nat → Nat → Nat → List (Float32 γ) → Nat → γ
  | bytes, _, _, _, [] => bytes
  | bytes, offset, stride, i, w :: ws =>
    scatterFrom (writeFloat32 bytes (i * stride + offset) w) offset stride (i + 1) ws

/-- `RendererGl::set_uniform_buffer_float_vector`, acting on the uniform
buffer's byte region: one contiguous copy when the stride is 0 or 4, else
the strided element-by-element scatter. -/
def RendererGl.set_uniform_buffer_float_vector (bytes : Nat → γ) (offset stride : Nat)
    (vector : List (Float32 γ)) : Nat → γ :=
  if stride = 0 ∨ stride = 4 then
    copyWords bytes offset vector
  else
    scatterFrom bytes offset stride 0 vector

/-- `RendererVk::set_uniform_buffer_float_vector`, acting on the uniform
buffer's byte region: one contiguous copy when the stride is 0 or 4, else
the strided element-by-element scatter. -/
def RendererVk.set_uniform_buffer_float_vector (bytes : Nat → γ) (offset stride : Nat)
    (vector : List (Float32 γ)) : Nat → γ :=
  if stride = 0 ∨ stride = 4 then
    copyWords bytes offset vector
  else
    scatterFrom bytes offset stride 0 vector

/-- Write word `i` of the list at byte address `offset + i * step`, in
index order; the reference description of both branches of
`set_uniform_buffer_float_vector` (step 4 for the contiguous copy, the
stride otherwise). -/
def writeElems : (Nat → γ) → Nat → Nat → Nat → List (Float32 γ) → Nat → γ
  | bytes, _, _, _, [] => bytes
  | bytes, offset, step, i, w :: ws =>
    writeElems (writeFloat32 bytes (offset + i * step) w) offset step (i + 1) ws

/-- The slice of `ShaderGlsl` state behind the uniform/attribute lookups:
the name-to-location tables built by `build_shader` and the warning flag. -/
structure ShaderGlsl : Type where
  shader_name : String
  generate_warnings : Bool
  uniforms : List (String × Int)
  attributes : List (String × Int)

/-- `ShaderGlsl::get_uniform`: -1 with an optional warning when the name is
absent from the table, the stored location otherwise. -/
def ShaderGlsl.get_uniform (s : ShaderGlsl) (name : String) : Int × Option String :=
  match s.uniforms.lookup name with
  | none =>
    (-1,
      if s.generate_warnings then
        some ("get_uniform could not find " ++ name ++ " for " ++ s.shader_name)
      else
        none)
  | some u => (u, none)

/-- `ShaderGlsl::get_attribute`: -1 with an optional warning when the name is
absent from the table, the stored location otherwise. -/
def ShaderGlsl.get_attribute (s : ShaderGlsl) (name : String) : Int × Option String :=
  match s.attributes.lookup name with
  | none =>
    (-1,
      if s.generate_warnings then
        some ("get_attribute could not find " ++ name ++ " for " ++ s.shader_name)
      else
        none)
  | some u => (u, none)

/-- The observable `gl::Uniform1i` call. -/
structure GlUniform1i : Type where
  location : Int
  value : Int
deriving DecidableEq, Repr

/-- `ShaderGlsl::set_uniform_int`: look the uniform up and issue the GL call
only when the returned location is non-negative. -/
def ShaderGlsl.set_uniform_int (s : ShaderGlsl) (uniform_name : String) (value : Int) :
    Option GlUniform1i :=
  let u := (s.get_uniform uniform_name).1
  if 0 ≤ u then some { location := u, value := value } else none

/-- graphics/image.rs `Image`, with the pixel byte type abstracted. -/
structure Image (γ : Type) : Type where
  width : Nat
  height : Nat
  data : List γ
deriving DecidableEq, Repr

/-- `Image::create_from_raw_data`: rebuild the RGB byte vector with the row
order reversed (`data[(height - 1 - y) * width * 3 + x]`). -/
def Image.create_from_raw_data [Inhabited γ] (width height : Nat) (data : List γ) :
    Image γ :=
  { width := width
    height := height
    data := (List.range height).flatMap (fun y =>
      (List.range (width * 3)).map (fun x =>
        data.getD ((height - 1 - y) * width * 3 + x) default)) }

/-- Row `y` of a flat buffer whose rows are `w3` entries wide. -/
def rowOf (d : List γ) (w3 y : Nat) : List γ :=
  (d.drop (y * w3)).take w3

/-- Write the values `vs` into `d` at consecutive positions starting at `i`:
the canonical form of "write one primitive's worth of attribute values at a
flat-buffer offset". -/
def writeRun : List α → Nat → List α → List α
  | d, _, [] => d
  | d, i, v :: vs => writeRun (d.set i v) (i + 1) vs

section BatchLemmas

variable {α : Type}

theorem add_st_n3_fields (td : ThreadData α) (n1 n2 n3 : Vec3 α) :
    (td.add_triangle_st_n3 n1 n2 n3).index = td.index + 1 ∧
    (td.add_triangle_st_n3 n1 n2 n3).data.length = td.data.length ∧
    (td.add_triangle_st_n3 n1 n2 n3).vertex_array_type = td.vertex_array_type ∧
    (td.add_triangle_st_n3 n1 n2 n3).thr = td.thr ∧
    (td.add_triangle_st_n3 n1 n2 n3).primitive = td.primitive := by
  simp [ThreadData.add_triangle_st_n3]

theorem add_st_f3f3f3_fields (td : ThreadData α) (v1 n1 c1 v2 n2 c2 v3 n3 c3 : Vec3 α) :
    (td.add_triangle_st_f3f3f3 v1 n1 c1 v2 n2 c2 v3 n3 c3).index = td.index + 1 ∧
    (td.add_triangle_st_f3f3f3 v1 n1 c1 v2 n2 c2 v3 n3 c3).data.length = td.data.length ∧
    (td.add_triangle_st_f3f3f3 v1 n1 c1 v2 n2 c2 v3 n3 c3).vertex_array_type =
      td.vertex_array_type ∧
    (td.add_triangle_st_f3f3f3 v1 n1 c1 v2 n2 c2 v3 n3 c3).thr = td.thr ∧
    (td.add_triangle_st_f3f3f3 v1 n1 c1 v2 n2 c2 v3 n3 c3).primitive = td.primitive := by
  simp [ThreadData.add_triangle_st_f3f3f3]

theorem add_st_f3f3_fields (td : ThreadData α) (v1 n1 v2 n2 v3 n3 : Vec3 α) :
    (td.add_triangle_st_f3f3 v1 n1 v2 n2 v3 n3).index = td.index + 1 ∧
    (td.add_triangle_st_f3f3 v1 n1 v2 n2 v3 n3).data.length = td.data.length ∧
    (td.add_triangle_st_f3f3 v1 n1 v2 n2 v3 n3).vertex_array_type = td.vertex_array_type ∧
    (td.add_triangle_st_f3f3 v1 n1 v2 n2 v3 n3).thr = td.thr ∧
    (td.add_triangle_st_f3f3 v1 n1 v2 n2 v3 n3).primitive = td.primitive := by
  simp [ThreadData.add_triangle_st_f3f3]

theorem add_st_f2f2_fields (td : ThreadData α) (v1 t1 v2 t2 v3 t3 : Vec2 α) :
    (td.add_triangle_st_f2f2 v1 t1 v2 t2 v3 t3).index = td.index + 1 ∧
    (td.add_triangle_st_f2f2 v1 t1 v2 t2 v3 t3).data.length = td.data.length ∧
    (td.add_triangle_st_f2f2 v1 t1 v2 t2 v3 t3).vertex_array_type = td.vertex_array_type ∧
    (td.add_triangle_st_f2f2 v1 t1 v2 t2 v3 t3).thr = td.thr ∧
    (td.add_triangle_st_f2f2 v1 t1 v2 t2 v3 t3).primitive = td.primitive := by
  simp [ThreadData.add_triangle_st_f2f2]

theorem clone_eq_self (td : ThreadData α) : td.clone = td := by
  simp [ThreadData.clone]

end BatchLemmas

/-- C5: for every layout variant, each `add_triangle_st` operation writes its
primitive's attribute values contiguously starting at flat-buffer offset
`write_index * (components_per_vertex(layout) * 3)` and then increments the
write index by 1, where `components_per_vertex` maps F3 to 3, F3F3F3 to 9,
F3F3 to 6 and F2F2 to 4. -/
theorem c5_append_offset_and_stride :
    (VertexArrayType.components_per_vertex .F3 = 3 ∧
     VertexArrayType.components_per_vertex .F3F3F3 = 9 ∧
     VertexArrayType.components_per_vertex .F3F3 = 6 ∧
     VertexArrayType.components_per_vertex .F2F2 = 4) ∧
    ∀ {α : Type} (td : ThreadData α) (v1 n1 c1 v2 n2 c2 v3 n3 c3 : Vec3 α)
      (w1 u1 w2 u2 w3 u3 : Vec2 α),
      td.add_triangle_st_n3 n1 n2 n3 =
        { td with
          index := td.index + 1
          data := writeRun td.data
            (td.index * (VertexArrayType.components_per_vertex td.vertex_array_type * 3))
            [n1.x, n1.y, n1.z, n2.x, n2.y, n2.z, n3.x, n3.y, n3.z] } ∧
      td.add_triangle_st_f3f3f3 v1 n1 c1 v2 n2 c2 v3 n3 c3 =
        { td with
          index := td.index + 1
          data := writeRun td.data
            (td.index * (VertexArrayType.components_per_vertex td.vertex_array_type * 3))
            [v1.x, v1.y, v1.z, n1.x, n1.y, n1.z, c1.x, c1.y, c1.z,
             v2.x, v2.y, v2.z, n2.x, n2.y, n2.z, c2.x, c2.y, c2.z,
             v3.x, v3.y, v3.z, n3.x, n3.y, n3.z, c3.x, c3.y, c3.z] } ∧
      td.add_triangle_st_f3f3 v1 n1 v2 n2 v3 n3 =
        { td with
          index := td.index + 1
          data := writeRun td.data
            (td.index * (VertexArrayType.components_per_vertex td.vertex_array_type * 3))
            [v1.x, v1.y, v1.z, n1.x, n1.y, n1.z, v2.x, v2.y, v2.z,
             n2.x, n2.y, n2.z, v3.x, v3.y, v3.z, n3.x, n3.y, n3.z] } ∧
      td.add_triangle_st_f2f2 w1 u1 w2 u2 w3 u3 =
        { td with
          index := td.index + 1
          data := writeRun td.data
            (td.index * (VertexArrayType.components_per_vertex td.vertex_array_type * 3))
            [w1.x, w1.y, u1.x, u1.y, w2.x, w2.y, u2.x, u2.y, w3.x, w3.y, u3.x, u3.y] } := by
  refine ⟨⟨rfl, rfl, rfl, rfl⟩, ?_⟩
  intro α td v1 n1 c1 v2 n2 c2 v3 n3 c3 w1 u1 w2 u2 w3 u3
  refine ⟨?_, ?_, ?_, ?_⟩ <;>
    simp [ThreadData.add_triangle_st_n3, ThreadData.add_triangle_st_f3f3f3,
      ThreadData.add_triangle_st_f3f3, ThreadData.add_triangle_st_f2f2, writeRun,
      Nat.mul_assoc, Nat.add_assoc]

/-- A concrete Vulkan renderer state used to instantiate theorems. -/
def vkState0 : VkState :=
  { image_count := 2
    max_threads := 1
    image_index := 0
    vertex_array_type := .F3F3F3
    vertex_buffer_index := fun _ _ _ => -1
    vertex_buffer_len := fun _ _ _ => 0 }

/-- C10: a flush of a batch whose write index is 0 returns immediately in
both backends: no draw call, no renderer lock, no buffer-pool cursor
advance, no vertex-buffer allocation, no state change at all. -/
theorem c10_empty_flush_is_noop {α : Type} (renderer_vat : VertexArrayType) (st : VkState)
    (td : ThreadData α) (h : td.index = 0) :
    RendererGl.flush renderer_vat td = { locked := false, draw := none } ∧
    RendererVk.flush st td = (st, none) := by
  simp [RendererGl.flush, RendererVk.flush, h]

/-- Witness for C10 at a concrete freshly-created batch. -/
theorem c10_witness :
    (ThreadData.new 0 (0 : Int)).index = 0 ∧
    (RendererGl.flush .F3F3F3 (ThreadData.new 0 (0 : Int)) =
        { locked := false, draw := none } ∧
      RendererVk.flush vkState0 (ThreadData.new 0 (0 : Int)) = (vkState0, none)) :=
  ⟨rfl, c10_empty_flush_is_noop .F3F3F3 vkState0 (ThreadData.new 0 (0 : Int)) rfl⟩

/-- C1: every `check_flush` variant performs a flush and resets the write
index to 0 exactly when `force` is set or the write index has reached
`TRIANGLE_ARRAY_SIZE`; in particular an unforced check on an empty batch
performs no draw call and leaves the batch unchanged. -/
theorem c1_check_flush_gate {α : Type} (td : ThreadData α) (force : Bool)
    (renderer_vat : VertexArrayType) (st : VkState) (max_threads : Nat) :
    (((td.check_flush_st_gl force renderer_vat).2.isSome = true ∧
        (td.check_flush_st_gl force renderer_vat).1.index = 0) ↔
      (force = true ∨ td.index = TRIANGLE_ARRAY_SIZE)) ∧
    (((td.check_flush_st_vk force st).2.2.isSome = true ∧
        (td.check_flush_st_vk force st).1.index = 0) ↔
      (force = true ∨ td.index = TRIANGLE_ARRAY_SIZE)) ∧
    (((td.check_flush_mt_gl force max_threads renderer_vat).2.isSome = true ∧
        (td.check_flush_mt_gl force max_threads renderer_vat).1.index = 0) ↔
      (force = true ∨ td.index = TRIANGLE_ARRAY_SIZE)) ∧
    (((td.check_flush_mt_vk force st).2.2.isSome = true ∧
        (td.check_flush_mt_vk force st).1.index = 0) ↔
      (force = true ∨ td.index = TRIANGLE_ARRAY_SIZE)) ∧
    (td.index = 0 →
      td.check_flush_st_gl false renderer_vat = (td, none) ∧
      td.check_flush_st_vk false st = (td, st, none) ∧
      td.check_flush_mt_gl false max_threads renderer_vat = (td, none) ∧
      td.check_flush_mt_vk false st = (td, st, none)) := by
  by_cases hi : td.index = TRIANGLE_ARRAY_SIZE <;> cases force <;>
    simp [ThreadData.check_flush_st_gl, ThreadData.check_flush_st_vk,
      ThreadData.check_flush_mt_gl, ThreadData.check_flush_mt_vk, hi] <;>
    first
    | decide
    | (split <;> simp <;> decide)

/-- Witness for C1's empty-batch clause at a concrete freshly-created batch. -/
theorem c1_witness :
    (ThreadData.new 0 (0 : Int)).index = 0 ∧
    ((ThreadData.new 0 (0 : Int)).check_flush_st_gl false .F3F3F3 =
        (ThreadData.new 0 (0 : Int), none) ∧
      (ThreadData.new 0 (0 : Int)).check_flush_st_vk false vkState0 =
        (ThreadData.new 0 (0 : Int), vkState0, none) ∧
      (ThreadData.new 0 (0 : Int)).check_flush_mt_gl false 4 .F3F3F3 =
        (ThreadData.new 0 (0 : Int), none) ∧
      (ThreadData.new 0 (0 : Int)).check_flush_mt_vk false vkState0 =
        (ThreadData.new 0 (0 : Int), vkState0, none)) :=
  ⟨rfl,
    (c1_check_flush_gate (ThreadData.new 0 (0 : Int)) false .F3F3F3 vkState0 4).2.2.2.2 rfl⟩

/-- Per-primitive component count of a layout (3 vertices per triangle). -/
def components_per_primitive (ty : VertexArrayType) : Nat :=
  VertexArrayType.components_per_vertex ty * 3

/-- The batch invariant of the spec: write index within `[0, capacity]` and a
data buffer of exactly `capacity * components_per_primitive(layout)`
components for the active layout. -/
def ThreadData.wf (td : ThreadData α) : Prop :=
  td.index ≤ TRIANGLE_ARRAY_SIZE ∧
  td.data.length = TRIANGLE_ARRAY_SIZE * components_per_primitive td.vertex_array_type

theorem check_flush_st_gl_fst {α : Type} (td : ThreadData α) (force : Bool)
    (renderer_vat : VertexArrayType) :
    (td.check_flush_st_gl force renderer_vat).1 =
      if force || td.index == TRIANGLE_ARRAY_SIZE then { td with index := 0 } else td := by
  unfold ThreadData.check_flush_st_gl
  split <;> rfl

theorem check_flush_st_vk_fst {α : Type} (td : ThreadData α) (force : Bool) (st : VkState) :
    (td.check_flush_st_vk force st).1 =
      if force || td.index == TRIANGLE_ARRAY_SIZE then { td with index := 0 } else td := by
  unfold ThreadData.check_flush_st_vk
  split <;> rfl

theorem check_flush_mt_gl_fst {α : Type} (td : ThreadData α) (force : Bool)
    (max_threads : Nat) (renderer_vat : VertexArrayType) :
    (td.check_flush_mt_gl force max_threads renderer_vat).1 =
      if force || td.index == TRIANGLE_ARRAY_SIZE then { td with index := 0 } else td := by
  unfold ThreadData.check_flush_mt_gl
  split
  · split <;> rfl
  · rfl

theorem wf_reset_or_keep {α : Type} (td : ThreadData α) (c : Bool) (h : td.wf) :
    (if c then { td with index := 0 } else td : ThreadData α).wf := by
  rcases h with ⟨h1, h2⟩
  cases c
  · exact ⟨h1, h2⟩
  · exact ⟨by simp, by simp [h2]⟩

/-- C6: the batch invariant (write index in `[0, capacity]`, buffer length
exactly `capacity * components_per_primitive(active layout)`) holds at
creation and is preserved by cloning, by every `check_flush` variant, by the
checked `add_triangle` operations, and by the raw `add_triangle_st`
operations under their flush-before-append precondition. -/
theorem c6_batch_invariant {α : Type} (z : α) (thr : Nat) :
    (ThreadData.new thr z : ThreadData α).wf ∧
    (∀ td : ThreadData α, td.wf → td.clone.wf) ∧
    (∀ (td : ThreadData α) (force : Bool) (rv : VertexArrayType),
      td.wf → (td.check_flush_st_gl force rv).1.wf) ∧
    (∀ (td : ThreadData α) (force : Bool) (st : VkState),
      td.wf → (td.check_flush_st_vk force st).1.wf) ∧
    (∀ (td : ThreadData α) (force : Bool) (m : Nat) (rv : VertexArrayType),
      td.wf → (td.check_flush_mt_gl force m rv).1.wf) ∧
    (∀ (td : ThreadData α) (m : Nat) (rv : VertexArrayType) (n1 n2 n3 : Vec3 α),
      td.wf → (td.add_triangle_n3_gl m rv n1 n2 n3).1.wf) ∧
    (∀ (td : ThreadData α) (m : Nat) (rv : VertexArrayType)
      (v1 n1 c1 v2 n2 c2 v3 n3 c3 : Vec3 α),
      td.wf → (td.add_triangle_f3f3f3_gl m rv v1 n1 c1 v2 n2 c2 v3 n3 c3).1.wf) ∧
    (∀ (td : ThreadData α) (m : Nat) (rv : VertexArrayType) (v1 n1 v2 n2 v3 n3 : Vec3 α),
      td.wf → (td.add_triangle_f3f3_gl m rv v1 n1 v2 n2 v3 n3).1.wf) ∧
    (∀ (td : ThreadData α) (n1 n2 n3 : Vec3 α),
      td.index < TRIANGLE_ARRAY_SIZE → td.wf → (td.add_triangle_st_n3 n1 n2 n3).wf) ∧
    (∀ (td : ThreadData α) (v1 n1 c1 v2 n2 c2 v3 n3 c3 : Vec3 α),
      td.index < TRIANGLE_ARRAY_SIZE → td.wf →
      (td.add_triangle_st_f3f3f3 v1 n1 c1 v2 n2 c2 v3 n3 c3).wf) ∧
    (∀ (td : ThreadData α) (v1 n1 v2 n2 v3 n3 : Vec3 α),
      td.index < TRIANGLE_ARRAY_SIZE → td.wf → (td.add_triangle_st_f3f3 v1 n1 v2 n2 v3 n3).wf) ∧
    (∀ (td : ThreadData α) (v1 t1 v2 t2 v3 t3 : Vec2 α),
      td.index < TRIANGLE_ARRAY_SIZE → td.wf →
      (td.add_triangle_st_f2f2 v1 t1 v2 t2 v3 t3).wf) := by
  have hnew : (ThreadData.new thr z : ThreadData α).wf := by
    constructor
    · simp [ThreadData.new]
    · simp [ThreadData.new, TRIANGLE_MAX_TOTAL_COMPONENTS, TRIANGLE_MAX_COMPONENTS,
        VERTEX_MAX_COMPONENTS, components_per_primitive, VertexArrayType.components_per_vertex]
  have hcheckgl : ∀ (td : ThreadData α) (force : Bool) (rv : VertexArrayType),
      td.wf → (td.check_flush_st_gl force rv).1.wf := by
    intro td force rv h
    rw [check_flush_st_gl_fst]
    exact wf_reset_or_keep td _ h
  have hcheckvk : ∀ (td : ThreadData α) (force : Bool) (st : VkState),
      td.wf → (td.check_flush_st_vk force st).1.wf := by
    intro td force st h
    rw [check_flush_st_vk_fst]
    exact wf_reset_or_keep td _ h
  have hcheckmt : ∀ (td : ThreadData α) (force : Bool) (m : Nat) (rv : VertexArrayType),
      td.wf → (td.check_flush_mt_gl force m rv).1.wf := by
    intro td force m rv h
    rw [check_flush_mt_gl_fst]
    exact wf_reset_or_keep td _ h
  have hidx : ∀ (td : ThreadData α) (m : Nat) (rv : VertexArrayType),
      td.wf → (td.check_flush_mt_gl false m rv).1.index + 1 ≤ TRIANGLE_ARRAY_SIZE ∧
        (td.check_flush_mt_gl false m rv).1.wf := by
    intro td m rv h
    refine ⟨?_, hcheckmt td false m rv h⟩
    rw [check_flush_mt_gl_fst]
    by_cases hi : td.index = TRIANGLE_ARRAY_SIZE
    · simp [hi]
      decide
    · simp [hi]
      rcases h with ⟨h1, _⟩
      omega
  have hstn3 : ∀ (td : ThreadData α) (n1 n2 n3 : Vec3 α),
      td.index + 1 ≤ TRIANGLE_ARRAY_SIZE → td.wf → (td.add_triangle_st_n3 n1 n2 n3).wf := by
    intro td n1 n2 n3 hle h
    obtain ⟨f1, f2, f3, _, _⟩ := add_st_n3_fields td n1 n2 n3
    exact ⟨by omega, by rw [f2, f3]; exact h.2⟩
  have hstf3f3f3 : ∀ (td : ThreadData α) (v1 n1 c1 v2 n2 c2 v3 n3 c3 : Vec3 α),
      td.index + 1 ≤ TRIANGLE_ARRAY_SIZE → td.wf →
      (td.add_triangle_st_f3f3f3 v1 n1 c1 v2 n2 c2 v3 n3 c3).wf := by
    intro td v1 n1 c1 v2 n2 c2 v3 n3 c3 hle h
    obtain ⟨f1, f2, f3, _, _⟩ := add_st_f3f3f3_fields td v1 n1 c1 v2 n2 c2 v3 n3 c3
    exact ⟨by omega, by rw [f2, f3]; exact h.2⟩
  have hstf3f3 : ∀ (td : ThreadData α) (v1 n1 v2 n2 v3 n3 : Vec3 α),
      td.index + 1 ≤ TRIANGLE_ARRAY_SIZE → td.wf →
      (td.add_triangle_st_f3f3 v1 n1 v2 n2 v3 n3).wf := by
    intro td v1 n1 v2 n2 v3 n3 hle h
    obtain ⟨f1, f2, f3, _, _⟩ := add_st_f3f3_fields td v1 n1 v2 n2 v3 n3
    exact ⟨by omega, by rw [f2, f3]; exact h.2⟩
  have hstf2f2 : ∀ (td : ThreadData α) (v1 t1 v2 t2 v3 t3 : Vec2 α),
      td.index + 1 ≤ TRIANGLE_ARRAY_SIZE → td.wf →
      (td.add_triangle_st_f2f2 v1 t1 v2 t2 v3 t3).wf := by
    intro td v1 t1 v2 t2 v3 t3 hle h
    obtain ⟨f1, f2, f3, _, _⟩ := add_st_f2f2_fields td v1 t1 v2 t2 v3 t3
    exact ⟨by omega, by rw [f2, f3]; exact h.2⟩
  refine ⟨hnew, ?_, hcheckgl, hcheckvk, hcheckmt, ?_, ?_, ?_, ?_, ?_, ?_, ?_⟩
  · intro td h
    rw [clone_eq_self]
    exact h
  · intro td m rv n1 n2 n3 h
    obtain ⟨hle, hwf⟩ := hidx td m rv h
    exact hstn3 _ n1 n2 n3 hle hwf
  · intro td m rv v1 n1 c1 v2 n2 c2 v3 n3 c3 h
    obtain ⟨hle, hwf⟩ := hidx td m rv h
    exact hstf3f3f3 _ v1 n1 c1 v2 n2 c2 v3 n3 c3 hle hwf
  · intro td m rv v1 n1 v2 n2 v3 n3 h
    obtain ⟨hle, hwf⟩ := hidx td m rv h
    exact hstf3f3 _ v1 n1 v2 n2 v3 n3 hle hwf
  · intro td n1 n2 n3 hlt h
    exact hstn3 td n1 n2 n3 (by omega) h
  · intro td v1 n1 c1 v2 n2 c2 v3 n3 c3 hlt h
    exact hstf3f3f3 td v1 n1 c1 v2 n2 c2 v3 n3 c3 (by omega) h
  · intro td v1 n1 v2 n2 v3 n3 hlt h
    exact hstf3f3 td v1 n1 v2 n2 v3 n3 (by omega) h
  · intro td v1 t1 v2 t2 v3 t3 hlt h
    exact hstf2f2 td v1 t1 v2 t2 v3 t3 (by omega) h

/-- Witness for C6's preservation clauses at a concrete freshly-created batch. -/
theorem c6_witness :
    (ThreadData.new 0 (0 : Int) : ThreadData Int).wf ∧
    ((ThreadData.new 0 (0 : Int)).check_flush_st_gl true .F3F3F3).1.wf :=
  ⟨(c6_batch_invariant (0 : Int) 0).1,
    (c6_batch_invariant (0 : Int) 0).2.2.1 (ThreadData.new 0 (0 : Int)) true .F3F3F3
      (c6_batch_invariant (0 : Int) 0).1⟩

/-- One triangle's worth of arguments for `add_triangle_st_f3f3f3`. -/
structure TriF3F3F3 (α : Type) : Type where
  v1 : Vec3 α
  n1 : Vec3 α
  c1 : Vec3 α
  v2 : Vec3 α
  n2 : Vec3 α
  c2 : Vec3 α
  v3 : Vec3 α
  n3 : Vec3 α
  c3 : Vec3 α
deriving DecidableEq, Repr, Inhabited

/-- Apply `add_triangle_st_f3f3f3` to one bundle of arguments. -/
def applyTriangle (td : ThreadData α) (t : TriF3F3F3 α) : ThreadData α :=
  td.add_triangle_st_f3f3f3 t.v1 t.n1 t.c1 t.v2 t.n2 t.c2 t.v3 t.n3 t.c3

/-- Append triangles `f base, f (base+1), ..., f (base+n-1)` (in that order)
with the raw single-threaded append. -/
def addTrianglesFrom (f : Nat → TriF3F3F3 α) (base : Nat) : Nat → ThreadData α → ThreadData α
  | 0, td => td
  | n + 1, td => applyTriangle (addTrianglesFrom f base n td) (f (base + n))

theorem addTrianglesFrom_fields {α : Type} (f : Nat → TriF3F3F3 α) (base : Nat) :
    ∀ (n : Nat) (td : ThreadData α),
      (addTrianglesFrom f base n td).index = td.index + n ∧
      (addTrianglesFrom f base n td).data.length = td.data.length ∧
      (addTrianglesFrom f base n td).vertex_array_type = td.vertex_array_type ∧
      (addTrianglesFrom f base n td).thr = td.thr ∧
      (addTrianglesFrom f base n td).primitive = td.primitive := by
  intro n
  induction n with
  | zero => intro td; simp [addTrianglesFrom]
  | succ m ih =>
    intro td
    obtain ⟨h1, h2, h3, h4, h5⟩ := ih td
    obtain ⟨g1, g2, g3, g4, g5⟩ :=
      add_st_f3f3f3_fields (addTrianglesFrom f base m td)
        (f (base + m)).v1 (f (base + m)).n1 (f (base + m)).c1
        (f (base + m)).v2 (f (base + m)).n2 (f (base + m)).c2
        (f (base + m)).v3 (f (base + m)).n3 (f (base + m)).c3
    refine ⟨?_, ?_, ?_, ?_, ?_⟩ <;>
      simp only [addTrianglesFrom, applyTriangle, g1, g2, g3, g4, g5, h1, h2, h3, h4, h5]
    omega

/-- C2: appending `N` primitives into a fresh batch and then triggering a
flush (forced for `N < capacity`, via the capacity-reached branch at exactly
`N = capacity`) issues one draw call of `N * 3` vertices backed by exactly
`N * components_per_triangle` buffer components, and resets the write index
to 0; at the boundary exactly `capacity` primitives are flushed. -/
theorem c2_round_trip_and_boundary {α : Type} (z : α) (thr : Nat)
    (renderer_vat : VertexArrayType) (f : Nat → TriF3F3F3 α) (N : Nat)
    (hpos : 0 < N) (hle : N ≤ TRIANGLE_ARRAY_SIZE) :
    (N < TRIANGLE_ARRAY_SIZE →
      ∃ d : DrawCall α,
        (addTrianglesFrom f 0 N (ThreadData.new thr z)).check_flush_st_gl true renderer_vat =
          ({ addTrianglesFrom f 0 N (ThreadData.new thr z) with index := 0 },
            some { locked := true, draw := some d }) ∧
        d.vertexCount = N * 3 ∧
        d.bufferData.length = N * (3 * VertexArrayType.components_per_vertex renderer_vat)) ∧
    (N = TRIANGLE_ARRAY_SIZE →
      ∃ d : DrawCall α,
        (addTrianglesFrom f 0 N (ThreadData.new thr z)).check_flush_st_gl false renderer_vat =
          ({ addTrianglesFrom f 0 N (ThreadData.new thr z) with index := 0 },
            some { locked := true, draw := some d }) ∧
        d.vertexCount = TRIANGLE_ARRAY_SIZE * 3 ∧
        d.bufferData.length =
          TRIANGLE_ARRAY_SIZE * (3 * VertexArrayType.components_per_vertex renderer_vat)) := by
  obtain ⟨h1, h2, h3, h4, h5⟩ := addTrianglesFrom_fields f 0 N (ThreadData.new thr z)
  set td := addTrianglesFrom f 0 N (ThreadData.new thr z) with htd
  have hidx : td.index = N := by
    rw [h1]
    simp [ThreadData.new]
  have hlen : td.data.length = TRIANGLE_MAX_TOTAL_COMPONENTS := by
    rw [h2]
    simp [ThreadData.new]
  have hflush : RendererGl.flush renderer_vat td =
      { locked := true
        draw := some
          { vertexCount := td.index * 3
            bufferData := td.data.take
              (td.index * (3 * VertexArrayType.components_per_vertex renderer_vat))
            primitive := td.primitive } } := by
    unfold RendererGl.flush
    rw [if_neg (by omega)]
  have htake : (td.data.take
      (td.index * (3 * VertexArrayType.components_per_vertex renderer_vat))).length =
      N * (3 * VertexArrayType.components_per_vertex renderer_vat) := by
    rw [List.length_take, hidx, hlen]
    have hcpv : VertexArrayType.components_per_vertex renderer_vat ≤ 9 := by
      cases renderer_vat <;> simp [VertexArrayType.components_per_vertex]
    have : N * (3 * VertexArrayType.components_per_vertex renderer_vat) ≤
        TRIANGLE_MAX_TOTAL_COMPONENTS := by
      calc N * (3 * VertexArrayType.components_per_vertex renderer_vat)
          ≤ TRIANGLE_ARRAY_SIZE * (3 * 9) :=
            Nat.mul_le_mul hle (by omega)
        _ = TRIANGLE_MAX_TOTAL_COMPONENTS := by
            simp [TRIANGLE_MAX_TOTAL_COMPONENTS, TRIANGLE_MAX_COMPONENTS,
              VERTEX_MAX_COMPONENTS, TRIANGLE_ARRAY_SIZE]
    omega
  constructor
  · intro hlt
    refine ⟨{ vertexCount := td.index * 3
              bufferData := td.data.take
                (td.index * (3 * VertexArrayType.components_per_vertex renderer_vat))
              primitive := td.primitive }, ?_, ?_, htake⟩
    · unfold ThreadData.check_flush_st_gl
      rw [if_pos (by simp)]
      rw [hflush]
    · rw [hidx]
  · intro heq
    refine ⟨{ vertexCount := td.index * 3
              bufferData := td.data.take
                (td.index * (3 * VertexArrayType.components_per_vertex renderer_vat))
              primitive := td.primitive }, ?_, ?_, ?_⟩
    · unfold ThreadData.check_flush_st_gl
      rw [if_pos (by simp [hidx, heq])]
      rw [hflush]
    · rw [hidx, heq]
    · rw [htake, heq]

/-- Witness for C2 at one appended triangle. -/
theorem c2_witness :
    (0 < 1 ∧ 1 ≤ TRIANGLE_ARRAY_SIZE) ∧
    (1 < TRIANGLE_ARRAY_SIZE →
      ∃ d : DrawCall Int,
        (addTrianglesFrom (fun _ => default) 0 1
            (ThreadData.new 0 (0 : Int))).check_flush_st_gl true .F3F3F3 =
          ({ addTrianglesFrom (fun _ => default) 0 1 (ThreadData.new 0 (0 : Int)) with
              index := 0 },
            some { locked := true, draw := some d }) ∧
        d.vertexCount = 1 * 3 ∧
        d.bufferData.length = 1 * (3 * VertexArrayType.components_per_vertex .F3F3F3)) :=
  ⟨⟨by decide, by decide⟩,
    (c2_round_trip_and_boundary (0 : Int) 0 .F3F3F3 (fun _ => default) 1
      (by decide) (by decide)).1⟩

/-- C8: a uniform or attribute name absent from the shader's lookup tables
yields the sentinel -1 (with a warning exactly when the generate-warnings
flag is set) rather than aborting, and `set_uniform_int` skips the GL call
exactly when the sentinel comes back (the tables built by `build_shader`
only store non-negative locations), so a missing-name lookup never issues a
GL call. -/
theorem c8_missing_lookup_nonfatal (s : ShaderGlsl) (name : String) (value : Int)
    (hu : s.uniforms.lookup name = none) (ha : s.attributes.lookup name = none) :
    s.get_uniform name =
      (-1,
        if s.generate_warnings then
          some ("get_uniform could not find " ++ name ++ " for " ++ s.shader_name)
        else none) ∧
    s.get_attribute name =
      (-1,
        if s.generate_warnings then
          some ("get_attribute could not find " ++ name ++ " for " ++ s.shader_name)
        else none) ∧
    s.set_uniform_int name value = none ∧
    (∀ (s2 : ShaderGlsl),
      (∀ (nm : String) (u : Int), s2.uniforms.lookup nm = some u → 0 ≤ u) →
      ∀ (nm : String) (v : Int),
        (s2.set_uniform_int nm v = none ↔ (s2.get_uniform nm).1 = -1)) := by
  refine ⟨?_, ?_, ?_, ?_⟩
  · simp [ShaderGlsl.get_uniform, hu]
  · simp [ShaderGlsl.get_attribute, ha]
  · simp [ShaderGlsl.set_uniform_int, ShaderGlsl.get_uniform, hu]
  · intro s2 hwf nm v
    unfold ShaderGlsl.set_uniform_int ShaderGlsl.get_uniform
    cases hcase : s2.uniforms.lookup nm with
    | none => simp
    | some u =>
      have hpos := hwf nm u hcase
      simp only []
      constructor
      · intro hnone
        by_cases h0 : 0 ≤ u
        · simp [h0] at hnone
        · omega
      · intro heq
        simp only at heq
        omega

/-- Witness for C8 at a table without the requested name. -/
theorem c8_witness :
    ((({ shader_name := "font"
         generate_warnings := true
         uniforms := [("mvp", (3 : Int))]
         attributes := [] } : ShaderGlsl).uniforms.lookup "missing" = none) ∧
      (({ shader_name := "font"
          generate_warnings := true
          uniforms := [("mvp", (3 : Int))]
          attributes := [] } : ShaderGlsl).attributes.lookup "missing" = none)) ∧
    ({ shader_name := "font"
       generate_warnings := true
       uniforms := [("mvp", (3 : Int))]
       attributes := [] } : ShaderGlsl).set_uniform_int "missing" 7 = none :=
  ⟨⟨by decide, by decide⟩,
    (c8_missing_lookup_nonfatal
      { shader_name := "font"
        generate_warnings := true
        uniforms := [("mvp", (3 : Int))]
        attributes := [] } "missing" 7 (by decide) (by decide)).2.2.1⟩

theorem copyWords_eq_writeElems {γ : Type} :
    ∀ (ws : List (Float32 γ)) (bytes : Nat → γ) (offset i : Nat),
      copyWords bytes (offset + 4 * i) ws = writeElems bytes offset 4 i ws := by
  intro ws
  induction ws with
  | nil => intro bytes offset i; rfl
  | cons w rest ih =>
    intro bytes offset i
    have h1 : offset + 4 * i + 4 = offset + 4 * (i + 1) := by ring
    have h2 : offset + 4 * i = offset + i * 4 := by ring
    simp only [copyWords, writeElems, h2]
    rw [← h2, h1]
    exact ih _ offset (i + 1)

theorem scatterFrom_eq_writeElems {γ : Type} :
    ∀ (ws : List (Float32 γ)) (bytes : Nat → γ) (offset stride i : Nat),
      scatterFrom bytes offset stride i ws = writeElems bytes offset stride i ws := by
  intro ws
  induction ws with
  | nil => intro bytes offset stride i; rfl
  | cons w rest ih =>
    intro bytes offset stride i
    have h : i * stride + offset = offset + i * stride := by ring
    simp only [scatterFrom, writeElems, h]
    exact ih _ offset stride (i + 1)

/-- C7: in both backends, `set_uniform_buffer_float_vector` performs one
contiguous copy of all elements starting at the uniform's byte offset when
the stride is 0 or equal to the natural 4-byte element width (element `i`
lands at `offset + i * 4`), and otherwise writes element `i` at byte offset
`offset + i * stride`, for every `i`. -/
theorem c7_uniform_vector_stride {γ : Type} (bytes : Nat → γ) (offset stride : Nat)
    (vector : List (Float32 γ)) :
    ((stride = 0 ∨ stride = 4) →
      RendererGl.set_uniform_buffer_float_vector bytes offset stride vector =
        writeElems bytes offset 4 0 vector ∧
      RendererVk.set_uniform_buffer_float_vector bytes offset stride vector =
        writeElems bytes offset 4 0 vector) ∧
    (¬(stride = 0 ∨ stride = 4) →
      RendererGl.set_uniform_buffer_float_vector bytes offset stride vector =
        writeElems bytes offset stride 0 vector ∧
      RendererVk.set_uniform_buffer_float_vector bytes offset stride vector =
        writeElems bytes offset stride 0 vector) := by
  have hcopy : copyWords bytes offset vector = writeElems bytes offset 4 0 vector := by
    have := copyWords_eq_writeElems vector bytes offset 0
    simpa using this
  constructor
  · intro h
    unfold RendererGl.set_uniform_buffer_float_vector RendererVk.set_uniform_buffer_float_vector
    rw [if_pos h]
    exact ⟨hcopy, hcopy⟩
  · intro h
    unfold RendererGl.set_uniform_buffer_float_vector RendererVk.set_uniform_buffer_float_vector
    rw [if_neg h]
    exact ⟨scatterFrom_eq_writeElems vector bytes offset stride 0,
      scatterFrom_eq_writeElems vector bytes offset stride 0⟩

/-- Witness for C7 at stride 4 (contiguous) and stride 12 (scatter). -/
theorem c7_witness :
    (((4 : Nat) = 0 ∨ (4 : Nat) = 4) ∧
      RendererGl.set_uniform_buffer_float_vector (fun _ => (0 : Int)) 16 4
          [⟨1, 2, 3, 4⟩] =
        writeElems (fun _ => (0 : Int)) 16 4 0 [⟨1, 2, 3, 4⟩]) ∧
    (¬((12 : Nat) = 0 ∨ (12 : Nat) = 4) ∧
      RendererVk.set_uniform_buffer_float_vector (fun _ => (0 : Int)) 16 12
          [⟨1, 2, 3, 4⟩] =
        writeElems (fun _ => (0 : Int)) 16 12 0 [⟨1, 2, 3, 4⟩]) :=
  ⟨⟨by decide,
      ((c7_uniform_vector_stride (fun _ => (0 : Int)) 16 4 [⟨1, 2, 3, 4⟩]).1
        (by decide)).1⟩,
    ⟨by decide,
      ((c7_uniform_vector_stride (fun _ => (0 : Int)) 16 12 [⟨1, 2, 3, 4⟩]).2
        (by decide)).2⟩⟩

theorem rowOf_flatten {γ : Type} :
    ∀ (ls : List (List γ)) (w3 y : Nat), (∀ l ∈ ls, l.length = w3) → y < ls.length →
      rowOf ls.flatten w3 y = ls.getD y [] := by
  intro ls
  induction ls with
  | nil =>
    intro w3 y _ hy
    simp at hy
  | cons l rest ih =>
    intro w3 y hlen hy
    have hl : l.length = w3 := hlen l (by simp)
    cases y with
    | zero =>
      simp only [rowOf, List.flatten_cons, Nat.zero_mul, List.drop_zero, List.getD_cons_zero]
      rw [← hl, List.take_left]
    | succ m =>
      have harith : (m + 1) * w3 = l.length + m * w3 := by
        rw [hl]
        ring
      simp only [rowOf, List.flatten_cons, harith, List.drop_append, List.getD_cons_succ]
      exact ih w3 m (fun a ha => hlen a (by simp [ha])) (by simpa using hy)

theorem range_map_getD_eq_drop_take {γ : Type} [Inhabited γ] (d : List γ) (base n : Nat)
    (h : base + n ≤ d.length) :
    (List.range n).map (fun x => d.getD (base + x) default) = (d.drop base).take n := by
  apply List.ext_getElem
  · simp
    omega
  · intro i h1 h2
    have hi : i < n := by simpa using h1
    have hb : base + i < d.length := by omega
    simp only [List.getElem_map, List.getElem_range, List.getElem_take, List.getElem_drop]
    exact List.getD_eq_getElem d default hb

/-- C9: `create_from_raw_data` preserves the byte count of a `w*h*3` RGB
buffer and reverses row order: output row `y` equals input row `h - 1 - y`
for every `y < h`. -/
theorem c9_create_from_raw_data_flips_rows {γ : Type} [Inhabited γ]
    (width height : Nat) (data : List γ) (hlen : data.length = width * height * 3) :
    (Image.create_from_raw_data width height data).data.length = data.length ∧
    ∀ y : Nat, y < height →
      rowOf (Image.create_from_raw_data width height data).data (width * 3) y =
        rowOf data (width * 3) (height - 1 - y) := by
  have hlen2 : data.length = height * (width * 3) := by
    rw [hlen]
    ring
  have hg : ∀ y : Nat,
      ((List.range (width * 3)).map (fun x =>
        data.getD ((height - 1 - y) * width * 3 + x) default)).length = width * 3 := by
    intro y
    simp
  have hdata : (Image.create_from_raw_data width height data).data =
      ((List.range height).map (fun y => (List.range (width * 3)).map (fun x =>
        data.getD ((height - 1 - y) * width * 3 + x) default))).flatten := by
    simp [Image.create_from_raw_data, List.flatMap_def]
  constructor
  · rw [hdata, List.length_flatten, hlen2]
    have : ((List.range height).map (fun y => (List.range (width * 3)).map (fun x =>
        data.getD ((height - 1 - y) * width * 3 + x) default))).map List.length =
        List.replicate height (width * 3) := by
      rw [List.eq_replicate_iff]
      constructor
      · simp
      · intro b hb
        rw [List.map_map] at hb
        simp only [List.mem_map] at hb
        obtain ⟨a, _, ha⟩ := hb
        rw [← ha]
        simp
    rw [this, List.sum_replicate, smul_eq_mul]
  · intro y hy
    rw [hdata, rowOf_flatten _ (width * 3) y ?hall (by simpa using hy)]
    case hall =>
      intro l hl
      simp only [List.mem_map] at hl
      obtain ⟨a, _, ha⟩ := hl
      simp [← ha]
    have hgetd : ((List.range height).map (fun y => (List.range (width * 3)).map (fun x =>
        data.getD ((height - 1 - y) * width * 3 + x) default))).getD y [] =
        (List.range (width * 3)).map (fun x =>
          data.getD ((height - 1 - y) * width * 3 + x) default) := by
      rw [List.getD_eq_getElem _ _ (by simpa using hy)]
      simp
    rw [hgetd]
    have hbase : ∀ x : Nat, (height - 1 - y) * width * 3 + x =
        (height - 1 - y) * (width * 3) + x := by
      intro x
      ring_nf
    simp only [hbase]
    apply range_map_getD_eq_drop_take
    have h1 : height - 1 - y + 1 ≤ height := by omega
    calc (height - 1 - y) * (width * 3) + width * 3
        = (height - 1 - y + 1) * (width * 3) := by ring
      _ ≤ height * (width * 3) := Nat.mul_le_mul_right _ h1
      _ = data.length := hlen2.symm

/-- Witness for C9 at a 1-wide, 2-high RGB image. -/
theorem c9_witness :
    ([10, 11, 12, 20, 21, 22] : List Int).length = 1 * 2 * 3 ∧
    ((Image.create_from_raw_data 1 2 ([10, 11, 12, 20, 21, 22] : List Int)).data.length =
        ([10, 11, 12, 20, 21, 22] : List Int).length ∧
      ∀ y : Nat, y < 2 →
        rowOf (Image.create_from_raw_data 1 2 ([10, 11, 12, 20, 21, 22] : List Int)).data
            (1 * 3) y =
          rowOf ([10, 11, 12, 20, 21, 22] : List Int) (1 * 3) (2 - 1 - y)) :=
  ⟨by decide, c9_create_from_raw_data_flips_rows 1 2 [10, 11, 12, 20, 21, 22] (by decide)⟩

/-- One Vulkan-path `add_triangle_f3f3f3` step (unforced flush check, then
append), iterated over triangles `f base, ..., f (base+n-1)` while threading
the renderer state. -/
def addTrianglesVkFrom (f : Nat → TriF3F3F3 α) (base : Nat) :
    Nat → VkState × ThreadData α → VkState × ThreadData α
  | 0, s => s
  | n + 1, s =>
    let r := addTrianglesVkFrom f base n s
    let c := r.2.check_flush_st_vk false r.1
    (c.2.1, applyTriangle c.1 (f (base + n)))

theorem addTrianglesVkFrom_succ {α : Type} (f : Nat → TriF3F3F3 α) (base n : Nat)
    (s : VkState × ThreadData α) :
    addTrianglesVkFrom f base (n + 1) s =
      (((addTrianglesVkFrom f base n s).2.check_flush_st_vk false
          (addTrianglesVkFrom f base n s).1).2.1,
        applyTriangle ((addTrianglesVkFrom f base n s).2.check_flush_st_vk false
          (addTrianglesVkFrom f base n s).1).1 (f (base + n))) :=
  rfl

theorem addTrianglesVkFrom_no_flush {α : Type} (f : Nat → TriF3F3F3 α) :
    ∀ (n base : Nat) (st : VkState) (td : ThreadData α),
      td.index + n ≤ TRIANGLE_ARRAY_SIZE →
      addTrianglesVkFrom f base n (st, td) = (st, addTrianglesFrom f base n td) := by
  intro n
  induction n with
  | zero =>
    intro base st td _
    rfl
  | succ m ih =>
    intro base st td h
    have hidx : (addTrianglesFrom f base m td).index = td.index + m :=
      (addTrianglesFrom_fields f base m td).1
    have hne :
        ¬((false || ((addTrianglesFrom f base m td).index == TRIANGLE_ARRAY_SIZE)) = true) := by
      simp [hidx]
      omega
    have hcheck : (addTrianglesFrom f base m td).check_flush_st_vk false st =
        (addTrianglesFrom f base m td, st, none) := by
      unfold ThreadData.check_flush_st_vk
      rw [if_neg hne]
    rw [addTrianglesVkFrom_succ, ih base st td (by omega)]
    show (((addTrianglesFrom f base m td).check_flush_st_vk false st).2.1,
        applyTriangle ((addTrianglesFrom f base m td).check_flush_st_vk false st).1
          (f (base + m))) =
      (st, addTrianglesFrom f base (m + 1) td)
    rw [hcheck]
    rfl

theorem addTrianglesVkFrom_add {α : Type} (f : Nat → TriF3F3F3 α) :
    ∀ (b a base : Nat) (s : VkState × ThreadData α),
      addTrianglesVkFrom f base (a + b) s =
        addTrianglesVkFrom f (base + a) b (addTrianglesVkFrom f base a s) := by
  intro b
  induction b with
  | zero =>
    intro a base s
    rfl
  | succ m ih =>
    intro a base s
    have h1 : a + (m + 1) = (a + m) + 1 := by omega
    rw [h1, addTrianglesVkFrom_succ f base (a + m) s,
      addTrianglesVkFrom_succ f (base + a) m (addTrianglesVkFrom f base a s),
      ih a base s]
    have h2 : base + (a + m) = base + a + m := by omega
    rw [h2]

theorem vat_toIdx_le_end (ty : VertexArrayType) :
    ty.toIdx ≤ VERTEX_ARRAY_TYPE_END_RANGE := by
  cases ty <;> decide

theorem vk_begin_pass_fields (st : VkState) (sv : VertexArrayType) :
    (RendererVk.begin_pass sv st).image_index = st.image_index ∧
    (RendererVk.begin_pass sv st).vertex_array_type = sv ∧
    (RendererVk.begin_pass sv st).max_threads = st.max_threads ∧
    (RendererVk.begin_pass sv st).vertex_buffer_len = st.vertex_buffer_len ∧
    ∀ t thr2 : Nat, t ≤ VERTEX_ARRAY_TYPE_END_RANGE → thr2 < st.max_threads →
      (RendererVk.begin_pass sv st).vertex_buffer_index st.image_index t thr2 = -1 := by
  refine ⟨rfl, rfl, rfl, rfl, ?_⟩
  intro t thr2 h1 h2
  simp [RendererVk.begin_pass, VERTEX_ARRAY_TYPE_BEGIN_RANGE, VertexArrayType.toIdx, h1, h2]

theorem vk_flush_nonempty {α : Type} (st : VkState) (td : ThreadData α) (h : td.index ≠ 0) :
    (RendererVk.flush st td).1.vertex_buffer_index st.image_index
        st.vertex_array_type.toIdx td.thr =
      st.vertex_buffer_index st.image_index st.vertex_array_type.toIdx td.thr + 1 ∧
    (RendererVk.flush st td).1.vertex_buffer_len st.image_index
        st.vertex_array_type.toIdx td.thr =
      (if st.vertex_buffer_index st.image_index st.vertex_array_type.toIdx td.thr + 1 =
          (st.vertex_buffer_len st.image_index st.vertex_array_type.toIdx td.thr : Int)
        then st.vertex_buffer_len st.image_index st.vertex_array_type.toIdx td.thr + 1
        else st.vertex_buffer_len st.image_index st.vertex_array_type.toIdx td.thr) ∧
    (RendererVk.flush st td).2 = some
      { bufferIndex :=
          st.vertex_buffer_index st.image_index st.vertex_array_type.toIdx td.thr + 1
        words := td.data.take
          (3 * VertexArrayType.components_per_vertex st.vertex_array_type * td.index)
        vertexCount := 3 * td.index } ∧
    (RendererVk.flush st td).1.image_index = st.image_index ∧
    (RendererVk.flush st td).1.vertex_array_type = st.vertex_array_type ∧
    (RendererVk.flush st td).1.max_threads = st.max_threads := by
  unfold RendererVk.flush
  rw [if_neg h]
  refine ⟨?_, ?_, rfl, rfl, rfl, rfl⟩ <;> simp [update3]

/-- A Vulkan renderer state carrying a stale cursor on the non-current
swapchain image 1 (of 2 swapchain images). -/
def vkStateStale : VkState :=
  { image_count := 2
    max_threads := 1
    image_index := 0
    vertex_array_type := .F3F3F3
    vertex_buffer_index := fun img _ _ => if img = 1 then 5 else -1
    vertex_buffer_len := fun _ _ _ => 1 }

/-- C4 counterexample: `begin_pass` does NOT reset the buffer-pool cursor of
every (swapchain image, layout, thread) slot: with 2 swapchain images and the
current image index 0, the slot of image 1 keeps its stale cursor 5 instead
of being reset to -1. -/
theorem c4_counterexample :
    (RendererVk.begin_pass .F3F3F3 vkStateStale).vertex_buffer_index 1 0 0 = 5 ∧
    ¬(RendererVk.begin_pass .F3F3F3 vkStateStale).vertex_buffer_index 1 0 0 = -1 := by
  constructor <;> decide

/-- C4 (amended): in explicit mode `begin_pass` resets the buffer-pool
cursors of every (layout, thread) slot of the *current* swapchain image to
-1; each non-empty flush increments the batch's slot cursor by exactly 1 and
appends one new vertex buffer to the pool exactly when the incremented
cursor equals the pool's current length; hence the first non-empty flush of
a pass uses pool index 0, and a pass writing capacity + 10 primitives leaves
the slot's pool with at least 2 entries. -/
theorem c4_buffer_pool_cursor {α : Type} (st : VkState) (sv : VertexArrayType) :
    (∀ t thr2 : Nat, t ≤ VERTEX_ARRAY_TYPE_END_RANGE → thr2 < st.max_threads →
      (RendererVk.begin_pass sv st).vertex_buffer_index st.image_index t thr2 = -1) ∧
    (∀ td : ThreadData α, td.index ≠ 0 →
      (RendererVk.flush st td).1.vertex_buffer_index st.image_index
          st.vertex_array_type.toIdx td.thr =
        st.vertex_buffer_index st.image_index st.vertex_array_type.toIdx td.thr + 1 ∧
      (RendererVk.flush st td).1.vertex_buffer_len st.image_index
          st.vertex_array_type.toIdx td.thr =
        (if st.vertex_buffer_index st.image_index st.vertex_array_type.toIdx td.thr + 1 =
            (st.vertex_buffer_len st.image_index st.vertex_array_type.toIdx td.thr : Int)
          then st.vertex_buffer_len st.image_index st.vertex_array_type.toIdx td.thr + 1
          else st.vertex_buffer_len st.image_index st.vertex_array_type.toIdx td.thr)) ∧
    (∀ td : ThreadData α, td.index ≠ 0 → td.thr < st.max_threads →
      ∃ d : VkDraw α,
        (RendererVk.flush (RendererVk.begin_pass sv st) td).2 = some d ∧
        d.bufferIndex = 0) ∧
    (∀ (z : α) (thr : Nat) (f : Nat → TriF3F3F3 α), thr < st.max_threads →
      2 ≤ ((addTrianglesVkFrom f 0 (TRIANGLE_ARRAY_SIZE + 10)
          (RendererVk.begin_pass sv st, ThreadData.new thr z)).2.check_flush_st_vk true
          (addTrianglesVkFrom f 0 (TRIANGLE_ARRAY_SIZE + 10)
            (RendererVk.begin_pass sv st, ThreadData.new thr z)).1).2.1.vertex_buffer_len
          st.image_index sv.toIdx thr) := by
  obtain ⟨hb1, hb2, hb3, hb4, hb5⟩ := vk_begin_pass_fields st sv
  refine ⟨hb5, ?_, ?_, ?_⟩
  · intro td hne
    obtain ⟨g1, g2, _⟩ := vk_flush_nonempty st td hne
    exact ⟨g1, g2⟩
  · intro td hne hthr
    obtain ⟨g1, g2, g3, _⟩ := vk_flush_nonempty (RendererVk.begin_pass sv st) td hne
    refine ⟨_, g3, ?_⟩
    show (RendererVk.begin_pass sv st).vertex_buffer_index
        (RendererVk.begin_pass sv st).image_index
        (RendererVk.begin_pass sv st).vertex_array_type.toIdx td.thr + 1 = 0
    rw [hb1, hb2, hb5 sv.toIdx td.thr (vat_toIdx_le_end sv) hthr]
    decide
  · intro z thr f hthr
    set A := RendererVk.begin_pass sv st with hA
    set td0 : ThreadData α := ThreadData.new thr z with htd0
    have htd0idx : td0.index = 0 := rfl
    have htd0thr : td0.thr = thr := rfl
    clear_value td0
    have h512 : addTrianglesVkFrom f 0 TRIANGLE_ARRAY_SIZE (A, td0) =
        (A, addTrianglesFrom f 0 TRIANGLE_ARRAY_SIZE td0) :=
      addTrianglesVkFrom_no_flush f TRIANGLE_ARRAY_SIZE 0 A td0 (by rw [htd0idx]; omega)
    set td512 := addTrianglesFrom f 0 TRIANGLE_ARRAY_SIZE td0 with htd512
    obtain ⟨h512idx0, _, _, h512thr0, _⟩ := addTrianglesFrom_fields f 0 TRIANGLE_ARRAY_SIZE td0
    have h512idx : td512.index = TRIANGLE_ARRAY_SIZE := by
      rw [htd512, h512idx0, htd0idx]
      omega
    have h512thr : td512.thr = thr := by
      rw [htd512, h512thr0, htd0thr]
    clear_value td512
    have h512ne : td512.index ≠ 0 := by
      rw [h512idx]
      decide
    set stA := (RendererVk.flush A td512).1 with hstA
    set tdB := applyTriangle { td512 with index := 0 } (f (0 + TRIANGLE_ARRAY_SIZE)) with htdB
    have hcheck512 : td512.check_flush_st_vk false A =
        ({ td512 with index := 0 }, (RendererVk.flush A td512).1,
          some (RendererVk.flush A td512).2) := by
      unfold ThreadData.check_flush_st_vk
      rw [if_pos (by simp [h512idx] : (false || (td512.index == TRIANGLE_ARRAY_SIZE)) = true)]
    have hstep : addTrianglesVkFrom f 0 (TRIANGLE_ARRAY_SIZE + 1) (A, td0) = (stA, tdB) := by
      rw [addTrianglesVkFrom_succ f 0 TRIANGLE_ARRAY_SIZE (A, td0), h512]
      dsimp only
      rw [hcheck512]
    obtain ⟨f1, f2, _, f4, f5, f6⟩ := vk_flush_nonempty A td512 h512ne
    rw [hb1, hb2, h512thr] at f1 f2
    rw [hb5 sv.toIdx thr (vat_toIdx_le_end sv) hthr] at f1 f2
    have hslotA : stA.vertex_buffer_index st.image_index sv.toIdx thr = 0 := by
      rw [hstA, f1]
      decide
    have hlenA : 1 ≤ stA.vertex_buffer_len st.image_index sv.toIdx thr := by
      rw [hstA, f2]
      split <;> omega
    have hstAimg : stA.image_index = st.image_index := by
      rw [hstA, f4, hb1]
    have hstAvat : stA.vertex_array_type = sv := by
      rw [hstA, f5, hb2]
    clear_value stA
    obtain ⟨gb1, _, _, gb4, _⟩ :=
      add_st_f3f3f3_fields ({ td512 with index := 0 } : ThreadData α)
        (f (0 + TRIANGLE_ARRAY_SIZE)).v1 (f (0 + TRIANGLE_ARRAY_SIZE)).n1
        (f (0 + TRIANGLE_ARRAY_SIZE)).c1 (f (0 + TRIANGLE_ARRAY_SIZE)).v2
        (f (0 + TRIANGLE_ARRAY_SIZE)).n2 (f (0 + TRIANGLE_ARRAY_SIZE)).c2
        (f (0 + TRIANGLE_ARRAY_SIZE)).v3 (f (0 + TRIANGLE_ARRAY_SIZE)).n3
        (f (0 + TRIANGLE_ARRAY_SIZE)).c3
    have hmid_idx : ({ td512 with index := 0 } : ThreadData α).index = 0 := rfl
    have hmid_thr : ({ td512 with index := 0 } : ThreadData α).thr = td512.thr := rfl
    have htdBidx : tdB.index = 1 := by
      rw [htdB]
      show (ThreadData.add_triangle_st_f3f3f3 { td512 with index := 0 }
        (f (0 + TRIANGLE_ARRAY_SIZE)).v1 (f (0 + TRIANGLE_ARRAY_SIZE)).n1
        (f (0 + TRIANGLE_ARRAY_SIZE)).c1 (f (0 + TRIANGLE_ARRAY_SIZE)).v2
        (f (0 + TRIANGLE_ARRAY_SIZE)).n2 (f (0 + TRIANGLE_ARRAY_SIZE)).c2
        (f (0 + TRIANGLE_ARRAY_SIZE)).v3 (f (0 + TRIANGLE_ARRAY_SIZE)).n3
        (f (0 + TRIANGLE_ARRAY_SIZE)).c3).index = 1
      rw [gb1, hmid_idx]
    have htdBthr : tdB.thr = thr := by
      rw [htdB]
      show (ThreadData.add_triangle_st_f3f3f3 { td512 with index := 0 }
        (f (0 + TRIANGLE_ARRAY_SIZE)).v1 (f (0 + TRIANGLE_ARRAY_SIZE)).n1
        (f (0 + TRIANGLE_ARRAY_SIZE)).c1 (f (0 + TRIANGLE_ARRAY_SIZE)).v2
        (f (0 + TRIANGLE_ARRAY_SIZE)).n2 (f (0 + TRIANGLE_ARRAY_SIZE)).c2
        (f (0 + TRIANGLE_ARRAY_SIZE)).v3 (f (0 + TRIANGLE_ARRAY_SIZE)).n3
        (f (0 + TRIANGLE_ARRAY_SIZE)).c3).thr = thr
      rw [gb4, hmid_thr]
      exact h512thr
    clear_value tdB
    have hrun : addTrianglesVkFrom f 0 (TRIANGLE_ARRAY_SIZE + 10) (A, td0) =
        (stA, addTrianglesFrom f (0 + (TRIANGLE_ARRAY_SIZE + 1)) 9 tdB) := by
      have hsplit : TRIANGLE_ARRAY_SIZE + 10 = (TRIANGLE_ARRAY_SIZE + 1) + 9 := by omega
      rw [hsplit, addTrianglesVkFrom_add f 9 (TRIANGLE_ARRAY_SIZE + 1) 0 (A, td0), hstep]
      exact addTrianglesVkFrom_no_flush f 9 (0 + (TRIANGLE_ARRAY_SIZE + 1)) stA tdB
        (by rw [htdBidx]; decide)
    set tdC := addTrianglesFrom f (0 + (TRIANGLE_ARRAY_SIZE + 1)) 9 tdB with htdC
    obtain ⟨hc1, _, _, hc4, _⟩ := addTrianglesFrom_fields f (0 + (TRIANGLE_ARRAY_SIZE + 1)) 9 tdB
    have htdCidx : tdC.index = 10 := by
      rw [htdC, hc1, htdBidx]
    have htdCthr : tdC.thr = thr := by
      rw [htdC, hc4, htdBthr]
    clear_value tdC
    have htdCne : tdC.index ≠ 0 := by
      rw [htdCidx]
      decide
    rw [hrun]
    obtain ⟨k1, k2, _⟩ := vk_flush_nonempty stA tdC htdCne
    rw [hstAimg, hstAvat, htdCthr, hslotA] at k2
    show 2 ≤ (tdC.check_flush_st_vk true stA).2.1.vertex_buffer_len st.image_index sv.toIdx thr
    unfold ThreadData.check_flush_st_vk
    rw [if_pos (by simp : (true || (tdC.index == TRIANGLE_ARRAY_SIZE)) = true)]
    show 2 ≤ (RendererVk.flush stA tdC).1.vertex_buffer_len st.image_index sv.toIdx thr
    rw [k2]
    split <;> omega

/-- Witness for C4's amended statement at a concrete state. -/
theorem c4_witness :
    (0 < vkState0.max_threads) ∧
    2 ≤ ((addTrianglesVkFrom (fun _ => default) 0 (TRIANGLE_ARRAY_SIZE + 10)
        (RendererVk.begin_pass .F3F3F3 vkState0, ThreadData.new 0 (0 : Int))).2.check_flush_st_vk
        true
        (addTrianglesVkFrom (fun _ => default) 0 (TRIANGLE_ARRAY_SIZE + 10)
          (RendererVk.begin_pass .F3F3F3 vkState0, ThreadData.new 0 (0 : Int))).1).2.1.vertex_buffer_len
        vkState0.image_index (VertexArrayType.toIdx .F3F3F3) 0 :=
  ⟨by decide,
    (c4_buffer_pool_cursor vkState0 .F3F3F3).2.2.2 (0 : Int) 0 (fun _ => default)
      (by decide)⟩

/-- A worker's per-frame batch stream ends with its one finished-flagged
batch: every batch before the last carries `finished = false`, the last
carries `finished = true` (the final `check_flush(force=true)`). -/
def lastFinished {α : Type} : List (ThreadData α) → Prop
  | [] => False
  | [td] => td.finished = true
  | td :: rest => td.finished = false ∧ lastFinished rest

/-- `Interleaves streams msgs`: `msgs` is an order-preserving interleaving of
the per-worker FIFO streams (what the coordinator's shared mpsc channel can
deliver). -/
inductive Interleaves {T : Type} : List (List T) → List T → Prop where
  | nil (streams : List (List T)) (h : ∀ s ∈ streams, s = []) : Interleaves streams []
  | cons (i : Nat) (streams : List (List T)) (x : T) (s : List T) (msgs : List T)
      (hget : streams[i]? = some (x :: s))
      (htail : Interleaves (streams.set i s) msgs) :
      Interleaves streams (x :: msgs)

theorem lastFinished_ne_nil {α : Type} (s : List (ThreadData α)) (h : lastFinished s) :
    s ≠ [] := by
  cases s with
  | nil => exact absurd h (by simp [lastFinished])
  | cons x xs => simp

theorem lastFinished_cons {α : Type} (x : ThreadData α) (s : List (ThreadData α))
    (h : lastFinished (x :: s)) :
    (s = [] → x.finished = true) ∧ (s ≠ [] → x.finished = false ∧ lastFinished s) := by
  cases s with
  | nil =>
    refine ⟨fun _ => h, fun hc => absurd rfl hc⟩
  | cons y ys =>
    refine ⟨fun hc => by simp at hc, fun _ => h⟩

theorem countP_set_of_eq {β : Type} (p : β → Bool) :
    ∀ (l : List β) (i : Nat) (a b : β), l[i]? = some b → p b = p a →
      (l.set i a).countP p = l.countP p := by
  intro l
  induction l with
  | nil =>
    intro i a b h _
    simp at h
  | cons x xs ih =>
    intro i a b h hp
    cases i with
    | zero =>
      rw [List.getElem?_cons_zero, Option.some_inj] at h
      subst h
      simp [List.countP_cons, hp]
    | succ j =>
      rw [List.getElem?_cons_succ] at h
      rw [List.set_cons_succ]
      simp [List.countP_cons, ih j a b h hp]

theorem countP_set_of_drop {β : Type} (p : β → Bool) :
    ∀ (l : List β) (i : Nat) (a b : β), l[i]? = some b → p b = true → p a = false →
      (l.set i a).countP p + 1 = l.countP p := by
  intro l
  induction l with
  | nil =>
    intro i a b h _ _
    simp at h
  | cons x xs ih =>
    intro i a b h hb ha
    cases i with
    | zero =>
      rw [List.getElem?_cons_zero, Option.some_inj] at h
      subst h
      simp [List.countP_cons, hb, ha]
    | succ j =>
      rw [List.getElem?_cons_succ] at h
      rw [List.set_cons_succ]
      simp only [List.countP_cons]
      have := ih j a b h hb ha
      omega

theorem sum_map_set {β : Type} (g : β → Nat) :
    ∀ (l : List β) (i : Nat) (a b : β), l[i]? = some b →
      ((l.set i a).map g).sum + g b = (l.map g).sum + g a := by
  intro l
  induction l with
  | nil =>
    intro i a b h
    simp at h
  | cons x xs ih =>
    intro i a b h
    cases i with
    | zero =>
      rw [List.getElem?_cons_zero, Option.some_inj] at h
      subst h
      simp [List.set]
      omega
    | succ j =>
      rw [List.getElem?_cons_succ] at h
      rw [List.set_cons_succ]
      simp only [List.map_cons, List.sum_cons]
      have := ih j a b h
      omega

theorem coordinator_loop_exit {α : Type} (K : Nat) (rv : VertexArrayType) (tally : Nat)
    (msgs : List (ThreadData α)) (h : K ≤ tally) :
    coordinator_loop K rv tally msgs = some (tally, [], msgs) := by
  unfold coordinator_loop
  rw [if_pos h]

theorem coordinator_loop_recv {α : Type} (K : Nat) (rv : VertexArrayType) (tally : Nat)
    (td : ThreadData α) (rest : List (ThreadData α)) (h : ¬K ≤ tally) :
    coordinator_loop K rv tally (td :: rest) =
      match coordinator_loop K rv (if td.finished then tally + 1 else tally) rest with
      | none => none
      | some (t, es, leftover) =>
        some (t, { flushed := RendererGl.flush rv td, ack := td.thr } :: es, leftover) := by
  conv =>
    lhs
    unfold coordinator_loop
  rw [if_neg h]

/-- The coordinator loop, run against any channel interleaving of worker
streams that each end in their finished-flagged batch, consumes every
message, flushes and acknowledges each one in arrival order, and returns
with the finished tally exactly equal to the worker count. -/
theorem coordinator_loop_spec {α : Type} (K : Nat) (rv : VertexArrayType)
    (streams : List (List (ThreadData α))) (msgs : List (ThreadData α))
    (hI : Interleaves streams msgs) :
    ∀ tally : Nat,
      (∀ s ∈ streams, s = [] ∨ lastFinished s) →
      tally + streams.countP (fun s => !s.isEmpty) = K →
      coordinator_loop K rv tally msgs =
        some (K, msgs.map (fun td => { flushed := RendererGl.flush rv td, ack := td.thr }), []) := by
  induction hI with
  | nil streams h =>
    intro tally hS htc
    have hc0 : streams.countP (fun s => !s.isEmpty) = 0 := by
      rw [List.countP_eq_zero]
      intro a ha
      simp [h a ha]
    rw [hc0] at htc
    rw [coordinator_loop_exit K rv tally [] (by omega)]
    simp
    omega
  | cons i streams x s msgs hget htail ih =>
    intro tally hS htc
    have hmem : (x :: s) ∈ streams := List.getElem?_mem hget
    have hlf : lastFinished (x :: s) := by
      rcases hS (x :: s) hmem with h | h
      · simp at h
      · exact h
    have hcpos : 0 < streams.countP (fun s => !s.isEmpty) := by
      rw [List.countP_pos_iff]
      exact ⟨x :: s, hmem, by simp⟩
    have htlt : ¬K ≤ tally := by omega
    obtain ⟨hlast, hmore⟩ := lastFinished_cons x s hlf
    have hSset : ∀ s2 ∈ streams.set i s, s2 = [] ∨ lastFinished s2 := by
      intro s2 hs2
      rcases List.mem_or_eq_of_mem_set hs2 with h2 | h2
      · exact hS s2 h2
      · subst h2
        by_cases hnil : s2 = []
        · exact Or.inl hnil
        · exact Or.inr (hmore hnil).2
    rw [coordinator_loop_recv K rv tally x msgs htlt]
    by_cases hnil : s = []
    · subst hnil
      have hfin : x.finished = true := hlast rfl
      have hcount : (streams.set i ([] : List (ThreadData α))).countP (fun s => !s.isEmpty) + 1 =
          streams.countP (fun s => !s.isEmpty) :=
        countP_set_of_drop _ streams i [] (x :: []) hget (by simp) (by simp)
      rw [if_pos hfin, ih (tally + 1) hSset (by omega)]
      simp
    · have hfin : x.finished = false := (hmore hnil).1
      have hcount : (streams.set i s).countP (fun s => !s.isEmpty) =
          streams.countP (fun s => !s.isEmpty) :=
        countP_set_of_eq _ streams i s (x :: s) hget
          (by simp [hnil, List.isEmpty_iff])
      rw [if_neg (by simp [hfin]), ih tally hSset (by omega)]
      simp

theorem interleaves_sum {α : Type} (g : ThreadData α → Nat)
    (streams : List (List (ThreadData α))) (msgs : List (ThreadData α))
    (hI : Interleaves streams msgs) :
    (msgs.map g).sum = (streams.map (fun s => (s.map g).sum)).sum := by
  induction hI with
  | nil streams h =>
    simp only [List.map_nil, List.sum_nil]
    symm
    apply List.sum_eq_zero
    intro x hx
    simp only [List.mem_map] at hx
    obtain ⟨a, ha, hax⟩ := hx
    rw [h a ha] at hax
    simp at hax
    omega
  | cons i streams x s msgs hget htail ih =>
    have hkey := sum_map_set (fun s2 => (s2.map g).sum) streams i s (x :: s) hget
    simp only [List.map_cons, List.sum_cons] at hkey
    simp only [List.map_cons, List.sum_cons, ih]
    omega

theorem sum_of_const {M : Nat} : ∀ {l : List Nat}, (∀ x ∈ l, x = M) → l.sum = l.length * M := by
  intro l
  induction l with
  | nil => simp
  | cons x xs ih =>
    intro h
    have hx : x = M := h x (by simp)
    have hxs := ih (fun y hy => h y (by simp [hy]))
    simp only [List.sum_cons, List.length_cons, hx, hxs]
    ring

/-- C3: in the immediate-mode multi-threaded harness, a worker's
`check_flush` sends a clone whose `finished` flag equals `force`; the
coordinator loop flushes every received batch, acknowledges its sender,
bumps the tally exactly on finished-flagged batches, and exits when the
tally reaches the worker count K; consequently, over any channel
interleaving of K worker streams that each end in their single
finished-flagged batch, the loop consumes all messages, ends with tally
exactly K, and when every worker contributed M primitives the total
primitive count flushed is exactly K * M. -/
theorem c3_mt_harness {α : Type} (rv : VertexArrayType) (K M : Nat)
    (streams : List (List (ThreadData α))) (msgs : List (ThreadData α))
    (hK : streams.length = K)
    (hI : Interleaves streams msgs)
    (hS : ∀ s ∈ streams, lastFinished s) :
    (∀ (td : ThreadData α) (force : Bool) (mt : Nat), mt ≠ 1 →
      (force || td.index == TRIANGLE_ARRAY_SIZE) = true →
      td.check_flush_mt_gl force mt rv =
        ({ td with index := 0 },
          some (GlMtEffect.send { td.clone with finished := force }))) ∧
    coordinator_loop K rv 0 msgs =
      some (K, msgs.map (fun td => { flushed := RendererGl.flush rv td, ack := td.thr }), []) ∧
    ((∀ s ∈ streams, (s.map (fun td => td.index)).sum = M) →
      (msgs.map (fun td => td.index)).sum = K * M) := by
  refine ⟨?_, ?_, ?_⟩
  · intro td force mt hmt hcond
    unfold ThreadData.check_flush_mt_gl
    rw [if_pos hcond, if_neg hmt]
  · apply coordinator_loop_spec K rv streams msgs hI 0
    · intro s hs
      exact Or.inr (hS s hs)
    · have hall : streams.countP (fun s => !s.isEmpty) = streams.length := by
        rw [List.countP_eq_length]
        intro a ha
        have := lastFinished_ne_nil a (hS a ha)
        simp [List.isEmpty_iff, this]
      omega
  · intro hM
    rw [interleaves_sum (fun td => td.index) streams msgs hI]
    have heach : ∀ x ∈ streams.map (fun s => (s.map (fun td => td.index)).sum), x = M := by
      intro x hx
      simp only [List.mem_map] at hx
      obtain ⟨a, ha, hax⟩ := hx
      rw [← hax]
      exact hM a ha
    rw [sum_of_const heach]
    simp [hK]

/-- A finished single-batch message from worker `t`, used to instantiate the
harness theorem. -/
def mtBatch (t : Nat) : ThreadData Int :=
  { thr := t
    vertex_array_type := .F3F3F3
    index := 1
    primitive := .PrimitiveTriangles
    finished := true
    data := [] }

/-- Witness for C3: two workers, one finished single-primitive batch each,
delivered in order; the coordinator consumes both, tallies 2 and flushes
2 * 1 primitives. -/
theorem c3_witness :
    (([[mtBatch 0], [mtBatch 1]] : List (List (ThreadData Int))).length = 2 ∧
      Interleaves [[mtBatch 0], [mtBatch 1]] [mtBatch 0, mtBatch 1] ∧
      (∀ s ∈ ([[mtBatch 0], [mtBatch 1]] : List (List (ThreadData Int))), lastFinished s)) ∧
    coordinator_loop 2 .F3F3F3 0 [mtBatch 0, mtBatch 1] =
      some (2, [mtBatch 0, mtBatch 1].map
        (fun td => { flushed := RendererGl.flush .F3F3F3 td, ack := td.thr }), []) ∧
    ([mtBatch 0, mtBatch 1].map (fun td => td.index)).sum = 2 * 1 := by
  have hI : Interleaves [[mtBatch 0], [mtBatch 1]] [mtBatch 0, mtBatch 1] :=
    Interleaves.cons 0 [[mtBatch 0], [mtBatch 1]] (mtBatch 0) [] [mtBatch 1] rfl
      (Interleaves.cons 1 [[], [mtBatch 1]] (mtBatch 1) [] [] rfl
        (Interleaves.nil [[], []] (by simp)))
  have hS : ∀ s ∈ ([[mtBatch 0], [mtBatch 1]] : List (List (ThreadData Int))), lastFinished s := by
    intro s hs
    have : s = [mtBatch 0] ∨ s = [mtBatch 1] := by simpa using hs
    rcases this with h | h <;> subst h <;> exact rfl
  have hmain := c3_mt_harness .F3F3F3 2 1 [[mtBatch 0], [mtBatch 1]] [mtBatch 0, mtBatch 1]
    rfl hI hS
  refine ⟨⟨rfl, hI, hS⟩, hmain.2.1, hmain.2.2 ?_⟩
  intro s hs
  have : s = [mtBatch 0] ∨ s = [mtBatch 1] := by simpa using hs
  rcases this with h | h <;> subst h <;> rfl

end Wyvern
